import Mathlib

set_option linter.unusedVariables false
set_option linter.unreachableTactic false
set_option linter.unusedTactic false

/-
Shallow embedding of boulder's Validation Authority
(src/va/validation-authority.go) and proofs about the claims of its
specification.

External collaborators of the VA (the DNS resolver, the HTTP client, the
TLS dialer, the go-jose library, crypto/sha256, core.B64dec,
core.KeyDigestEquals, core.Challenge.IsSane, the public-suffix list) are
not part of this repository's source; they are modelled as oracle
parameters (function-valued environment fields) whose results the embedded
code consumes exactly where the source consumes them.

Go runtime panics (nil-pointer dereference, index out of range) are made
explicit through the GoOutcome type: a function either returns normally
(.ok) or crashes (.crash).
-/

namespace BoulderVA

/-- core.ProblemType is a string type; these are the constants used by the VA. -/
def MalformedProblem : String := "malformed"

def UnauthorizedProblem : String := "unauthorized"

def ServerInternalProblem : String := "serverInternal"

def ConnectionProblem : String := "connection"

def UnknownHostProblem : String := "unknownHost"

def TLSProblem : String := "tls"

def DNSSECProblem : String := "dnssec"

/-- The closed set of problem types named by the specification. -/
def problemTypeClosedSet : List String :=
  [MalformedProblem, UnauthorizedProblem, ServerInternalProblem,
   ConnectionProblem, UnknownHostProblem, TLSProblem, DNSSECProblem]

/-- core.ProblemDetails. -/
structure ProblemDetails where
  type : String
  detail : String
deriving DecidableEq, Repr

/-- core challenge status constants. -/
def StatusPending : String := "pending"

def StatusValid : String := "valid"

def StatusInvalid : String := "invalid"

/-- core challenge type constants. -/
def ChallengeTypeSimpleHTTP : String := "simpleHttp"

def ChallengeTypeDVSNI : String := "dvsni"

def ChallengeTypeDNS : String := "dns"

def IdentifierDNS : String := "dns"

/-- core.AcmeIdentifier. -/
structure AcmeIdentifier where
  type : String
  value : String
deriving DecidableEq, Repr

/-- core.Challenge: the fields read or written by the VA. -/
structure Challenge where
  type : String := ""
  status : String := ""
  error : Option ProblemDetails := none
  token : String := ""
  path : String := ""
  tls : Option Bool := none
  nonce : String := ""
  r : String := ""
  s : String := ""
deriving DecidableEq, Repr

/-- core.Authorization: the fields read or written by the VA. -/
structure Authorization where
  id : String := ""
  registrationID : Int := 0
  identifier : AcmeIdentifier
  challenges : List Challenge := []
deriving DecidableEq, Repr

/-- jose.JsonWebKey, identified by its public-key digest. -/
structure JsonWebKey where
  digest : String
deriving DecidableEq, Repr

/-- Modelled from the spec: core.KeyDigestEquals (core package not under
src/) compares two keys by public-key digest. -/
def KeyDigestEquals (j k : JsonWebKey) : Bool := j.digest == k.digest

/-- Header of one signature of a parsed JWS. -/
structure JWSSignatureHeader where
  jsonWebKey : JsonWebKey
deriving DecidableEq, Repr

/-- One signature of a parsed JWS. -/
structure JWSSignature where
  header : JWSSignatureHeader
deriving DecidableEq, Repr

/-- jose.JsonWebSignature as returned by jose.ParseSigned. -/
structure JsonWebSignature where
  signatures : List JWSSignature
deriving DecidableEq, Repr

/-- A JSON value as produced by json.Unmarshal into interface values: the
validator only ever type-asserts strings and booleans. -/
inductive JSONValue where
  | str (s : String)
  | bool (b : Bool)
  | other
deriving DecidableEq, Repr

/-- Outcome of a Go computation: normal return or runtime panic. -/
inductive GoOutcome (α : Type) where
  | ok (a : α)
  | crash (msg : String)
deriving Repr, DecidableEq

/-- A validator returns the updated challenge and an error value for audit
(none models a nil Go error), unless it panics. -/
abbrev ValidatorResult := GoOutcome (Challenge × Option String)

/-- Result of va.DNSResolver.LookupHost: a DNSSEC validation failure is a
distinct error kind (core.DNSSECError). -/
inductive HostLookupResult where
  | dnssecFailure (msg : String)
  | failure (msg : String)
  | ok
deriving DecidableEq, Repr

/-- Result of va.DNSResolver.LookupTXT. -/
inductive TXTLookupResult where
  | dnssecFailure (msg : String)
  | failure (msg : String)
  | ok (txts : List String)
deriving DecidableEq, Repr

/-- The inner error of a net.OpError, as type-asserted by
parseHTTPConnError. -/
inductive OpErrInner where
  | dnsErr (timeout temporary : Bool)
  | tlsAlert
  | otherInner
deriving DecidableEq, Repr

/-- A connection error, viewed after the single url.Error unwrap performed
by parseHTTPConnError: opErr is some iff the unwrapped error is a
net.OpError. -/
structure ConnError where
  opErr : Option OpErrInner
deriving DecidableEq, Repr

/-- parseHTTPConnError: maps an error from the HTTP or TLS connect paths
to an ACME problem type. -/
def parseHTTPConnError (e : ConnError) : String :=
  match e.opErr with
  | some (.dnsErr timeout temporary) =>
      if !timeout && !temporary then UnknownHostProblem else ConnectionProblem
  | some .tlsAlert => TLSProblem
  | some .otherInner => ConnectionProblem
  | none => ConnectionProblem

/-- VA configuration fields read by the validators. -/
structure VAConfig where
  issuerDomain : String := ""
  testMode : Bool := false
deriving DecidableEq, Repr

/-- Environment of validateDNS: the TXT resolver oracle. -/
structure DNSEnv where
  lookupTXT : String → TXTLookupResult

/-- validateDNS. -/
def validateDNS (va : VAConfig) (env : DNSEnv) (identifier : AcmeIdentifier)
    (input : Challenge) : ValidatorResult :=
  let challenge := input
  if identifier.type ≠ IdentifierDNS then
    .ok ({ challenge with
            error := some { type := MalformedProblem,
                            detail := "Identifier type for DNS was not itself DNS" },
            status := StatusInvalid },
         some "Identifier type for DNS was not itself DNS")
  else
    let challengeSubdomain := "_acme-challenge" ++ "." ++ identifier.value
    match env.lookupTXT challengeSubdomain with
    | .dnssecFailure msg =>
        .ok ({ challenge with
                error := some { type := DNSSECProblem, detail := msg },
                status := StatusInvalid },
             some msg)
    | .failure msg =>
        .ok ({ challenge with
                error := some { type := ServerInternalProblem,
                                detail := "Unable to communicate with DNS server" },
                status := StatusInvalid },
             some msg)
    | .ok txts =>
        -- the source compares each TXT string to the token with
        -- subtle.ConstantTimeCompare, which succeeds exactly on equality
        if txts.any (fun element => element == challenge.token) then
          .ok ({ challenge with status := StatusValid }, none)
        else
          .ok ({ challenge with
                  error := some { type := UnauthorizedProblem,
                                  detail := "Correct value not found for DNS challenge" },
                  status := StatusInvalid },
               some "Correct value not found for DNS challenge")

/-- An HTTP response as consumed by validateSimpleHTTP: its status code and
the result of ioutil.ReadAll on its body. -/
structure HTTPResponse where
  statusCode : Int
  body : Except String String
deriving Repr

/-- Environment of validateSimpleHTTP: the DNS resolver, the HTTP client
and the go-jose / encoding-json library oracles. -/
structure SimpleHTTPEnv where
  lookupHost : String → HostLookupResult
  -- http.NewRequest GET url: some error when the URL is invalid
  newRequestError : String → Option String
  -- client.Do on (url, Host header): a transport error yields a nil response
  httpGet : String → String → Except ConnError HTTPResponse
  -- jose.ParseSigned on the body string
  parseSigned : String → Except String JsonWebSignature
  -- parsedJws.Verify key: the payload bytes on success
  jwsVerify : JsonWebSignature → JsonWebKey → Except String String
  -- json.Unmarshal of the payload into a map: the entries of the object,
  -- with pairwise-distinct keys, in one iteration order of the Go map
  jsonUnmarshalObject : String → Except String (List (String × JSONValue))

/-- The field-checking loop over the parsed payload entries: returns none
when an entry with an unrecognized key is hit (the source returns early),
otherwise the final (typePassed, tokenPassed, pathPassed, tlsPassed). -/
def payloadFieldLoop (challenge : Challenge) :
    List (String × JSONValue) → Bool → Bool → Bool → Bool →
    Option (Bool × Bool × Bool × Bool)
  | [], typePassed, tokenPassed, pathPassed, tlsPassed =>
      some (typePassed, tokenPassed, pathPassed, tlsPassed)
  | (key, value) :: rest, typePassed, tokenPassed, pathPassed, tlsPassed =>
      if key = "type" then
        let pass := match value with
          | .str castValue => castValue == ChallengeTypeSimpleHTTP
          | _ => false
        payloadFieldLoop challenge rest pass tokenPassed pathPassed tlsPassed
      else if key = "token" then
        let pass := match value with
          | .str castValue => castValue == challenge.token
          | _ => false
        payloadFieldLoop challenge rest typePassed pass pathPassed tlsPassed
      else if key = "path" then
        let pass := match value with
          | .str castValue => castValue == challenge.path
          | _ => false
        payloadFieldLoop challenge rest typePassed tokenPassed pass tlsPassed
      else if key = "tls" then
        -- tlsValue := challenge.TLS != nil && *challenge.TLS
        let tlsValue := challenge.tls == some true
        let pass := match value with
          | .bool castValue => castValue == tlsValue
          | _ => false
        payloadFieldLoop challenge rest typePassed tokenPassed pathPassed pass
      else
        none

/-- validateSimpleHTTP. -/
def validateSimpleHTTP (va : VAConfig) (env : SimpleHTTPEnv)
    (identifier : AcmeIdentifier) (input : Challenge)
    (accountKey : JsonWebKey) : ValidatorResult :=
  let challenge := input
  if input.path.length = 0 then
    .ok ({ challenge with
            status := StatusInvalid,
            error := some { type := MalformedProblem,
                            detail := "No path provided for SimpleHTTP challenge." } },
         some "No path provided for SimpleHTTP challenge.")
  else if identifier.type ≠ IdentifierDNS then
    .ok ({ challenge with
            status := StatusInvalid,
            error := some { type := MalformedProblem,
                            detail := "Identifier type for SimpleHTTP was not DNS" } },
         some "Identifier type for SimpleHTTP was not DNS")
  else
    let hostName := identifier.value
    match env.lookupHost hostName with
    | .dnssecFailure msg =>
        .ok ({ challenge with
                error := some { type := DNSSECProblem, detail := msg },
                status := StatusInvalid },
             some msg)
    | .failure msg =>
        .ok ({ challenge with
                error := some { type := ServerInternalProblem,
                                detail := "Unable to communicate with DNS server" },
                status := StatusInvalid },
             some msg)
    | .ok =>
      let scheme := if input.tls = none ∨ input.tls = some true then "https" else "http"
      let hostName1 := if va.testMode then "localhost:5001" else hostName
      let scheme1 := if va.testMode then "http" else scheme
      let url := scheme1 ++ "://" ++ hostName1 ++ "/.well-known/acme-challenge/" ++ challenge.path
      match env.newRequestError url with
      | some e =>
          .ok ({ challenge with
                  error := some { type := MalformedProblem,
                                  detail := "URL provided for SimpleHTTP was invalid" },
                  status := StatusInvalid },
               some e)
      | none =>
        match env.httpGet url hostName1 with
        | .error connErr =>
            -- the source sets status invalid and a classified error here but
            -- does not return: it goes on to read httpResponse.StatusCode on
            -- a nil response, a runtime panic
            .crash "runtime error: invalid memory address or nil pointer dereference"
        | .ok httpResponse =>
          -- the non-200 branch sets status, error and err but falls through
          let challenge1 :=
            if httpResponse.statusCode ≠ 200 then
              { challenge with
                  status := StatusInvalid,
                  error := some { type := UnauthorizedProblem,
                                  detail := "Invalid response from " ++ url ++ ": " ++
                                            toString httpResponse.statusCode } }
            else challenge
          match httpResponse.body with
          | .error readErr =>
              .ok ({ challenge1 with status := StatusInvalid }, some readErr)
          | .ok body =>
            match env.parseSigned body with
            | .error e =>
                .ok ({ challenge1 with status := StatusInvalid },
                     some ("Validation response failed to parse as JWS: " ++ e))
            | .ok parsedJws =>
              if parsedJws.signatures.length > 1 then
                .ok ({ challenge1 with status := StatusInvalid },
                     some "Too many signatures on validation JWS")
              else
                match parsedJws.signatures with
                | [] =>
                    .ok ({ challenge1 with status := StatusInvalid },
                         some "Validation JWS not signed")
                | sig0 :: _ =>
                  let key := sig0.header.jsonWebKey
                  if !(KeyDigestEquals key accountKey) then
                    -- the source formats the message with err.Error() while
                    -- err is nil: a runtime panic
                    .crash "runtime error: invalid memory address or nil pointer dereference"
                  else
                    match env.jwsVerify parsedJws key with
                    | .error e =>
                        .ok ({ challenge1 with status := StatusInvalid },
                             some ("Validation response failed to verify: " ++ e))
                    | .ok payload =>
                      match env.jsonUnmarshalObject payload with
                      | .error e =>
                          .ok ({ challenge1 with status := StatusInvalid },
                               some ("Validation payload failed to parse as JSON: " ++ e))
                      | .ok parsedResponse =>
                        if parsedResponse.length ≠ 4 then
                          .ok ({ challenge1 with status := StatusInvalid },
                               some "Validation payload did not have all fields")
                        else
                          match payloadFieldLoop challenge1 parsedResponse false false false false with
                          | none =>
                              .ok ({ challenge1 with status := StatusInvalid },
                                   some "Validation payload did not have all fields")
                          | some (typePassed, tokenPassed, pathPassed, tlsPassed) =>
                            if !typePassed || !tokenPassed || !pathPassed || !tlsPassed then
                              .ok ({ challenge1 with status := StatusInvalid },
                                   some "Validation contents were not correct")
                            else
                              .ok ({ challenge1 with status := StatusValid }, none)

/-- A peer certificate, reduced to its dNSName SANs. -/
structure Cert where
  dnsNames : List String
deriving DecidableEq, Repr

/-- Environment of validateDvsni: the base64url decoder (core.B64dec, core
package not under src/), the DNS resolver, the SHA-256 digest formatted as
64 lowercase hex characters (crypto/sha256 plus the %064x format), and the
TLS dialer on (hostPort, serverName) yielding the peer certificates. -/
structure DvsniEnv where
  b64dec : String → Except String (List Nat)
  lookupHost : String → HostLookupResult
  sha256hex64 : List Nat → String
  tlsDial : String → String → Except ConnError (List Cert)

/-- validateDvsni. -/
def validateDvsni (va : VAConfig) (env : DvsniEnv)
    (identifier : AcmeIdentifier) (input : Challenge)
    (accountKey : JsonWebKey) : ValidatorResult :=
  let challenge := input
  if identifier.type ≠ "dns" then
    .ok ({ challenge with
            error := some { type := MalformedProblem,
                            detail := "Identifier type for DVSNI was not DNS" },
            status := StatusInvalid },
         some "Identifier type for DVSNI was not DNS")
  else
    let DVSNIsuffix := ".acme.invalid"
    let nonceName := challenge.nonce ++ DVSNIsuffix
    match env.b64dec challenge.r with
    | .error e =>
        .ok ({ challenge with
                status := StatusInvalid,
                error := some { type := MalformedProblem,
                                detail := "Failed to decode R value from DVSNI challenge" } },
             some e)
    | .ok R =>
      match env.b64dec challenge.s with
      | .error e =>
          .ok ({ challenge with
                  status := StatusInvalid,
                  error := some { type := MalformedProblem,
                                  detail := "Failed to decode S value from DVSNI challenge" } },
               some e)
      | .ok S =>
        let RS := R ++ S
        let zName := env.sha256hex64 RS ++ ".acme.invalid"
        match env.lookupHost identifier.value with
        | .dnssecFailure msg =>
            .ok ({ challenge with
                    error := some { type := DNSSECProblem, detail := msg },
                    status := StatusInvalid },
                 some msg)
        | .failure msg =>
            .ok ({ challenge with
                    error := some { type := ServerInternalProblem,
                                    detail := "Unable to communicate with DNS server" },
                    status := StatusInvalid },
                 some msg)
        | .ok =>
          let hostPort := if va.testMode then "localhost:5001" else identifier.value ++ ":443"
          match env.tlsDial hostPort nonceName with
          | .error connErr =>
              .ok ({ challenge with
                      status := StatusInvalid,
                      error := some { type := parseHTTPConnError connErr,
                                      detail := "Failed to connect to host for DVSNI challenge" } },
                   some "Failed to connect to host for DVSNI challenge")
          | .ok certs =>
            match certs with
            | [] =>
                .ok ({ challenge with
                        error := some { type := UnauthorizedProblem,
                                        detail := "No certs presented for DVSNI challenge" },
                        status := StatusInvalid },
                     some "No certs presented for DVSNI challenge")
            | cert0 :: _ =>
              -- constant-time compare of each dNSName SAN against zName
              if cert0.dnsNames.any (fun name => name == zName) then
                .ok ({ challenge with status := StatusValid }, none)
              else
                .ok ({ challenge with
                        error := some { type := UnauthorizedProblem,
                                        detail := "Correct zName not found for DVSNI challenge" },
                        status := StatusInvalid },
                     some "Correct zName not found for DVSNI challenge")

/-- verificationRequestEvent, the audit-log record. -/
structure VerificationRequestEvent where
  id : String := ""
  requester : Int := 0
  challenge : Option Challenge := none
  error : String := ""
deriving DecidableEq, Repr

/-- The observable effects of the validation body, in the order the source
performs them: the AuditObject emit, the Notice of the final authorization
and the RA OnValidationUpdate callback. -/
inductive VAEvent where
  | auditObject (name : String) (ev : VerificationRequestEvent)
  | noticeValidations (authz : Authorization)
  | raOnValidationUpdate (authz : Authorization)
deriving DecidableEq, Repr

/-- Environment of the validation body: the sanity check
core.Challenge.IsSane true (core package not under src/, kept abstract) and
the three validator environments. -/
structure ValidateEnv where
  isSane : Challenge → Bool
  simpleHTTP : SimpleHTTPEnv
  dvsni : DvsniEnv
  dns : DNSEnv

/-- Go slice indexing: out-of-range (negative included) panics, modelled
here as none. -/
def goIndex {α : Type} (l : List α) (i : Int) : Option α :=
  if 0 ≤ i then l.get? i.toNat else none

/-- validate, the asynchronous validation body. It indexes the challenge
list with no bounds check, runs the sanity check, dispatches on the
challenge type, stores the updated challenge back at the same index, emits
the audit event and notifies the RA. -/
def validate (va : VAConfig) (env : ValidateEnv) (authz : Authorization)
    (challengeIndex : Int) (accountKey : JsonWebKey) :
    GoOutcome (Authorization × List VAEvent) :=
  match goIndex authz.challenges challengeIndex with
  | none => .crash "runtime error: index out of range"
  | some ch =>
    if !(env.isSane ch) then
      let chall := { ch with
                      status := StatusInvalid,
                      error := some { type := MalformedProblem,
                                      detail := "Challenge failed sanity check." } }
      let authz1 := { authz with
                       challenges := authz.challenges.set challengeIndex.toNat chall }
      let logEvent : VerificationRequestEvent :=
        { id := authz.id, requester := authz.registrationID,
          challenge := some chall, error := "Challenge failed sanity check." }
      .ok (authz1, [.auditObject "Validation result" logEvent,
                    .noticeValidations authz1,
                    .raOnValidationUpdate authz1])
    else
      let step : GoOutcome (Authorization × Option String) :=
        if ch.type = ChallengeTypeSimpleHTTP then
          match validateSimpleHTTP va env.simpleHTTP authz.identifier ch accountKey with
          | .crash m => .crash m
          | .ok (c, e) =>
              .ok ({ authz with challenges := authz.challenges.set challengeIndex.toNat c }, e)
        else if ch.type = ChallengeTypeDVSNI then
          match validateDvsni va env.dvsni authz.identifier ch accountKey with
          | .crash m => .crash m
          | .ok (c, e) =>
              .ok ({ authz with challenges := authz.challenges.set challengeIndex.toNat c }, e)
        else if ch.type = ChallengeTypeDNS then
          match validateDNS va env.dns authz.identifier ch with
          | .crash m => .crash m
          | .ok (c, e) =>
              .ok ({ authz with challenges := authz.challenges.set challengeIndex.toNat c }, e)
        else
          -- no case of the switch matches: the challenge is left untouched
          .ok (authz, none)
      match step with
      | .crash m => .crash m
      | .ok (authz1, err) =>
        let ch1 := (goIndex authz1.challenges challengeIndex).getD ch
        let logEvent : VerificationRequestEvent :=
          { id := authz.id, requester := authz.registrationID,
            challenge := some ch1, error := err.getD "" }
        .ok (authz1, [.auditObject "Validation result" logEvent,
                      .noticeValidations authz1,
                      .raOnValidationUpdate authz1])

/-- UpdateValidations: schedules validate asynchronously and returns a nil
error at once; the scheduled task's outcome is the second component. -/
def UpdateValidations (va : VAConfig) (env : ValidateEnv) (authz : Authorization)
    (challengeIndex : Int) (accountKey : JsonWebKey) :
    Option String × GoOutcome (Authorization × List VAEvent) :=
  (none, validate va env authz challengeIndex accountKey)

/-- dns.CAA: the fields the VA reads. -/
structure CAA where
  tag : String
  flag : Nat
  value : String
deriving DecidableEq, Repr

/-- CAASet consists of filtered CAA records. -/
structure CAASet where
  issue : List CAA := []
  issuewild : List CAA := []
  iodef : List CAA := []
  unknown : List CAA := []
deriving DecidableEq, Repr

/-- criticalUnknown: true if any CAA record has an unknown tag property and
is flagged critical (any non-zero flag). -/
def criticalUnknown (caaSet : CAASet) : Bool :=
  caaSet.unknown.any (fun caaRecord => decide (0 < caaRecord.flag))

/-- newCAASet: filter CAA records by property, preserving order. -/
def newCAASet (CAAs : List CAA) : CAASet :=
  CAAs.foldl
    (fun filtered caaRecord =>
      if caaRecord.tag = "issue" then
        { filtered with issue := filtered.issue ++ [caaRecord] }
      else if caaRecord.tag = "issuewild" then
        { filtered with issuewild := filtered.issuewild ++ [caaRecord] }
      else if caaRecord.tag = "iodef" then
        { filtered with iodef := filtered.iodef ++ [caaRecord] }
      else
        { filtered with unknown := filtered.unknown ++ [caaRecord] })
    {}

/-- Environment of the CAA checker: the CAA resolver oracle
(name, followCNAME) and the configured public-suffix set
(policy.PublicSuffixList, policy package not under src/, kept abstract as
a membership list). -/
structure CAAEnv where
  lookupCAA : String → Bool → Except String (List CAA)
  publicSuffixList : List String

/-- Strip every trailing dot, as strings.TrimRight(domain, ".") does. -/
def trimRightDots (s : String) : String :=
  String.mk (s.toList.reverse.dropWhile (fun c => c == '.')).reverse

/-- strings.ToLower (Go stdlib, external to the repo), modelled
character-wise. -/
def goToLower (s : String) : String :=
  String.mk (s.toList.map Char.toLower)

/-- strings.Split(s, ".") (Go stdlib, external to the repo), modelled over
the character list: the empty string yields one empty field. -/
def goSplitDot (s : String) : List String :=
  (s.toList.foldr
    (fun c acc =>
      if c == '.' then [] :: acc
      else
        match acc with
        | [] => [[c]]
        | g :: rest => (c :: g) :: rest)
    [[]]).map (fun g => String.mk g)

/-- The RFC 6844 walk over the suffix sequence: each recursive call stands
for one iteration of the loop over i in range(splitDomain), the candidate
being the dot-join of the current suffix of labels. -/
def caaWalk (env : CAAEnv) : List String → Except String (Option CAASet)
  | [] => .ok none
  | splitDomain@(_ :: rest) =>
    let queryDomain := String.intercalate "." splitDomain
    -- Don't query a public suffix
    if queryDomain ∈ env.publicSuffixList then .ok none
    else
      -- Query CAA records for domain and its alias if it has a CNAME
      match env.lookupCAA queryDomain false with
      | .error e => .error e
      | .ok CAAs =>
        if 0 < CAAs.length then .ok (some (newCAASet CAAs))
        else
          match env.lookupCAA queryDomain true with
          | .error e => .error e
          | .ok CAAs1 =>
            if 0 < CAAs1.length then .ok (some (newCAASet CAAs1))
            else caaWalk env rest

/-- getCAASet. -/
def getCAASet (env : CAAEnv) (domain : String) : Except String (Option CAASet) :=
  let domain1 := trimRightDots domain
  caaWalk env (goSplitDot domain1)

/-- The scan over the chosen issue/issuewild bucket: the first record whose
value equals the issuer domain yields true; a non-matching record with a
non-zero flag stops the scan with false; an exhausted scan yields false. -/
def issuerScan (issuerDomain : String) : List CAA → Bool
  | [] => false
  | caa :: rest =>
    if caa.value = issuerDomain then true
    else if 0 < caa.flag then false
    else issuerScan issuerDomain rest

/-- CheckCAARecords: returns (present, valid) or a lookup error. -/
def CheckCAARecords (va : VAConfig) (env : CAAEnv)
    (identifier : AcmeIdentifier) : Except String (Bool × Bool) :=
  let domain := goToLower identifier.value
  match getCAASet env domain with
  | .error e => .error e
  | .ok none =>
      -- No CAA records found, can issue
      .ok (false, true)
  | .ok (some caaSet) =>
    if criticalUnknown caaSet then .ok (true, false)
    else if 0 < caaSet.issue.length ∨ 0 < caaSet.issuewild.length then
      -- strings.SplitN(domain, ".", 2)[0] is the first dot-separated label
      let checkSet :=
        if ((goSplitDot domain).headD "") = "*" then caaSet.issuewild
        else caaSet.issue
      .ok (true, issuerScan va.issuerDomain checkSet)
    else
      -- the final bare return: present and valid keep their zero values
      .ok (false, false)

/-- The challenge a validator returned, when it did not panic. -/
def retChallenge : ValidatorResult → Option Challenge
  | .ok (c, _) => some c
  | .crash _ => none

/-- The status of the returned challenge. -/
def retStatus (r : ValidatorResult) : Option String :=
  (retChallenge r).map Challenge.status

/-- The problem type of the returned challenge's error, when set. -/
def retErrorType (r : ValidatorResult) : Option String :=
  (retChallenge r).bind (fun c => c.error.map ProblemDetails.type)

/-- A challenge carries a non-empty error whose type is in the closed set. -/
def hasClosedErrorB (c : Challenge) : Bool :=
  match c.error with
  | some p => problemTypeClosedSet.contains p.type
  | none => false

/- Concrete inputs shared by the scenario theorems. -/

def vaProd : VAConfig := { issuerDomain := "my-ca.example", testMode := false }

def acctKey : JsonWebKey := { digest := "acct-key-digest" }

def dnsIdent : AcmeIdentifier := { type := "dns", value := "d.example" }

/- C1: a failing validateSimpleHTTP return path that does not populate
challenge.error: the response body fails to parse as a JWS. -/

def c1Input : Challenge :=
  { type := "simpleHttp", status := "pending", token := "tok", path := "abc",
    tls := some true }

def c1Env : SimpleHTTPEnv :=
  { lookupHost := fun _ => .ok
    newRequestError := fun _ => none
    httpGet := fun _ _ => .ok { statusCode := 200, body := .ok "not a JWS" }
    parseSigned := fun _ => .error "compact JWS format must have three parts"
    jwsVerify := fun _ _ => .error "unreached"
    jsonUnmarshalObject := fun _ => .error "unreached" }

def c1Returned : Challenge := { c1Input with status := StatusInvalid }

/-- C1 counterexample: on a response body that fails JWS parsing,
validateSimpleHTTP returns a challenge with status invalid and error still
empty, so not every failing return path populates challenge.error. -/
theorem c1_simpleHTTP_invalid_without_error :
    validateSimpleHTTP vaProd c1Env dnsIdent c1Input acctKey =
      .ok (c1Returned,
           some "Validation response failed to parse as JWS: compact JWS format must have three parts") ∧
    c1Returned.status = StatusInvalid ∧ c1Returned.error = none :=
  ⟨rfl, rfl, rfl⟩

/- C2: a non-200 response whose body nonetheless carries a correct JWS:
the non-200 branch sets an error but does not return, and the final valid
assignment is reached with the error still set. -/

def c2Input : Challenge :=
  { type := "simpleHttp", status := "pending", token := "tok", path := "abc",
    tls := some true }

def c2Payload : List (String × JSONValue) :=
  [("type", .str "simpleHttp"), ("token", .str "tok"),
   ("path", .str "abc"), ("tls", .bool true)]

def c2Env : SimpleHTTPEnv :=
  { lookupHost := fun _ => .ok
    newRequestError := fun _ => none
    httpGet := fun _ _ => .ok { statusCode := 404, body := .ok "jws-body" }
    parseSigned := fun _ => .ok { signatures := [{ header := { jsonWebKey := acctKey } }] }
    jwsVerify := fun _ _ => .ok "payload"
    jsonUnmarshalObject := fun _ => .ok c2Payload }

def c2Returned : Challenge :=
  { c2Input with
      status := StatusValid,
      error := some { type := UnauthorizedProblem,
                      detail := "Invalid response from https://d.example/.well-known/acme-challenge/abc: 404" } }

/-- C2 code bug: validateSimpleHTTP returns status valid together with a
non-empty error after observing a non-200 HTTP status, because the non-200
branch falls through instead of returning. -/
theorem c2_valid_with_nonempty_error :
    validateSimpleHTTP vaProd c2Env dnsIdent c2Input acctKey = .ok (c2Returned, none) ∧
    c2Returned.status = StatusValid ∧ c2Returned.error ≠ none :=
  ⟨rfl, rfl, by decide⟩

/- C3: a transport error from the HTTP client: the source dereferences the
nil response instead of returning. -/

def c3Input : Challenge :=
  { type := "simpleHttp", status := "pending", token := "tok", path := "abc",
    tls := some true }

def c3Env : SimpleHTTPEnv :=
  { lookupHost := fun _ => .ok
    newRequestError := fun _ => none
    httpGet := fun _ _ => .error { opErr := some .otherInner }
    parseSigned := fun _ => .error "unreached"
    jwsVerify := fun _ _ => .error "unreached"
    jsonUnmarshalObject := fun _ => .error "unreached" }

/-- C3 code bug: on a transport error from the HTTP GET,
validateSimpleHTTP does not return: it dereferences the nil response and
panics. -/
theorem c3_transport_error_panics :
    validateSimpleHTTP vaProd c3Env dnsIdent c3Input acctKey =
      .crash "runtime error: invalid memory address or nil pointer dereference" :=
  rfl

/- C4: challenge.tls absent and payload tls = true: the payload comparison
treats an absent challenge.tls as false and rejects. -/

def c4Input : Challenge :=
  { type := "simpleHttp", status := "pending", token := "tok", path := "abc",
    tls := none }

def c4Payload : List (String × JSONValue) :=
  [("type", .str "simpleHttp"), ("token", .str "tok"),
   ("path", .str "abc"), ("tls", .bool true)]

def c4Env : SimpleHTTPEnv :=
  { lookupHost := fun _ => .ok
    newRequestError := fun _ => none
    httpGet := fun _ _ => .ok { statusCode := 200, body := .ok "jws-body" }
    parseSigned := fun _ => .ok { signatures := [{ header := { jsonWebKey := acctKey } }] }
    jwsVerify := fun _ _ => .ok "payload"
    jsonUnmarshalObject := fun _ => .ok c4Payload }

def c4Returned : Challenge := { c4Input with status := StatusInvalid }

/-- C4 code bug: with challenge.tls absent, a payload carrying tls = true
and the three other correct fields is rejected as invalid, because the
source compares the payload tls against (challenge.TLS != nil &&
*challenge.TLS), which defaults an absent challenge.tls to false. -/
theorem c4_absent_tls_payload_true_rejected :
    validateSimpleHTTP vaProd c4Env dnsIdent c4Input acctKey =
      .ok (c4Returned, some "Validation contents were not correct") ∧
    c4Returned.status = StatusInvalid :=
  ⟨rfl, rfl⟩

/- C5: a JWS signed by a key whose digest differs from accountKey: the
mismatch branch formats its message with err.Error() while err is nil. -/

def c5Input : Challenge :=
  { type := "simpleHttp", status := "pending", token := "tok", path := "abc",
    tls := some true }

def c5Env : SimpleHTTPEnv :=
  { lookupHost := fun _ => .ok
    newRequestError := fun _ => none
    httpGet := fun _ _ => .ok { statusCode := 200, body := .ok "jws-body" }
    parseSigned := fun _ =>
      .ok { signatures := [{ header := { jsonWebKey := { digest := "other-key-digest" } } }] }
    jwsVerify := fun _ _ => .error "unreached"
    jsonUnmarshalObject := fun _ => .error "unreached" }

/-- C5 code bug: on a key-digest mismatch validateSimpleHTTP panics (the
source calls Error() on a nil error while formatting the message) instead
of returning invalid with an unauthorized error. -/
theorem c5_key_mismatch_panics :
    validateSimpleHTTP vaProd c5Env dnsIdent c5Input acctKey =
      .crash "runtime error: invalid memory address or nil pointer dereference" :=
  rfl

/- C6: a non-empty CAA set with only an iodef record: the decision chain
falls through to the bare return and yields the zero values. -/

def c6Env : CAAEnv :=
  { lookupCAA := fun q followCNAME =>
      if q = "d.example" ∧ followCNAME = false then
        .ok [{ tag := "iodef", flag := 0, value := "mailto:security@d.example" }]
      else .ok []
    publicSuffixList := ["example"] }

/-- C6 code bug: for a retrieved CAA set holding only an iodef record (no
issue, no issuewild, no critical unknown), CheckCAARecords returns
(present = false, valid = false), not (present = true, valid = true). -/
theorem c6_iodef_only_returns_false_false :
    CheckCAARecords vaProd c6Env dnsIdent = .ok (false, false) :=
  rfl

/- Neutral environments used by witnesses that never reach the network. -/

def trivialSimpleHTTPEnv : SimpleHTTPEnv :=
  { lookupHost := fun _ => .ok
    newRequestError := fun _ => none
    httpGet := fun _ _ => .error { opErr := none }
    parseSigned := fun _ => .error "unused"
    jwsVerify := fun _ _ => .error "unused"
    jsonUnmarshalObject := fun _ => .error "unused" }

def trivialDvsniEnv : DvsniEnv :=
  { b64dec := fun _ => .error "unused"
    lookupHost := fun _ => .ok
    sha256hex64 := fun _ => ""
    tlsDial := fun _ _ => .error { opErr := none } }

def emptyTXTEnv : DNSEnv := { lookupTXT := fun _ => .ok [] }

def trivialValidateEnv : ValidateEnv :=
  { isSane := fun _ => true
    simpleHTTP := trivialSimpleHTTPEnv
    dvsni := trivialDvsniEnv
    dns := emptyTXTEnv }

set_option maxHeartbeats 2000000 in
/-- C1 amended: every failing return of validateDvsni and of validateDNS
carries status invalid and a non-empty error whose type is in the closed
set; for validateSimpleHTTP only the weaker guarantee holds that, on an
input with an empty error, every error the returned challenge carries has
a type from the closed set — a failing validateSimpleHTTP return need not
carry an error at all, as the counterexample shows. -/
theorem c1_amended_validator_error_taxonomy (va : VAConfig) (denv : DvsniEnv)
    (nenv : DNSEnv) (senv : SimpleHTTPEnv) (idf : AcmeIdentifier)
    (input : Challenge) (key : JsonWebKey) :
    (∀ c e, validateDvsni va denv idf input key = .ok (c, e) →
        c.status = StatusInvalid → hasClosedErrorB c = true) ∧
    (∀ c e, validateDNS va nenv idf input = .ok (c, e) →
        c.status = StatusInvalid → hasClosedErrorB c = true) ∧
    (input.error = none →
      ∀ c e p, validateSimpleHTTP va senv idf input key = .ok (c, e) →
        c.error = some p → p.type ∈ problemTypeClosedSet) := by
  refine ⟨?_, ?_, ?_⟩
  · intro c e h hst
    unfold validateDvsni at h
    dsimp only at h
    repeat' split at h
    all_goals cases h
    all_goals simp_all [hasClosedErrorB, problemTypeClosedSet, MalformedProblem,
      UnauthorizedProblem, ServerInternalProblem, DNSSECProblem, StatusValid,
      StatusInvalid]
    all_goals (unfold parseHTTPConnError; repeat' split) <;>
      simp [UnknownHostProblem, TLSProblem, ConnectionProblem]
  · intro c e h hst
    unfold validateDNS at h
    dsimp only at h
    repeat' split at h
    all_goals cases h
    all_goals simp_all [hasClosedErrorB, problemTypeClosedSet, MalformedProblem,
      UnauthorizedProblem, ServerInternalProblem, DNSSECProblem, StatusValid,
      StatusInvalid]
  · intro h0 c e p h herr
    unfold validateSimpleHTTP at h
    dsimp only at h
    repeat' split at h
    all_goals cases h
    all_goals simp_all [problemTypeClosedSet, MalformedProblem, UnauthorizedProblem,
      ServerInternalProblem, ConnectionProblem, UnknownHostProblem, TLSProblem,
      DNSSECProblem, StatusValid, StatusInvalid]
    all_goals (try cases herr)
    all_goals simp

def w1DnsInput : Challenge := { type := "dns", status := "pending", token := "tok" }

def w1DnsReturned : Challenge :=
  { w1DnsInput with
      error := some { type := UnauthorizedProblem,
                      detail := "Correct value not found for DNS challenge" },
      status := StatusInvalid }

/-- Witness for the amended C1 theorem: a concrete failing validateDNS run
whose returned challenge carries a closed-set error. -/
theorem c1_amended_validator_error_taxonomy_witness :
    hasClosedErrorB w1DnsReturned = true :=
  (c1_amended_validator_error_taxonomy vaProd trivialDvsniEnv emptyTXTEnv
      trivialSimpleHTTPEnv dnsIdent w1DnsInput acctKey).2.1
    w1DnsReturned (some "Correct value not found for DNS challenge") rfl rfl

/- C7: the CAA walk and inheritance from the parent domain. -/

def s7Env : CAAEnv :=
  { lookupCAA := fun q followCNAME =>
      if q = "d.example" ∧ followCNAME = false then
        .ok [{ tag := "issue", flag := 0, value := "my-ca.example" }]
      else .ok []
    publicSuffixList := ["example"] }

def s7Ident : AcmeIdentifier := { type := "dns", value := "sub.d.example" }

/-- C7: the CAA walk stops at a public-suffix candidate, terminates at the
first non-empty result of the plain query or of the CNAME-following query,
otherwise recurses to the parent suffix; when nothing is found along the
whole walk CheckCAARecords returns (present = false, valid = true); and in
scenario S7 a subdomain without records inherits the parent's issue
record. -/
theorem c7_caa_walk_inheritance :
    (∀ env p rest, String.intercalate "." (p :: rest) ∈ env.publicSuffixList →
        caaWalk env (p :: rest) = .ok none) ∧
    (∀ env p rest CAAs,
        String.intercalate "." (p :: rest) ∉ env.publicSuffixList →
        env.lookupCAA (String.intercalate "." (p :: rest)) false = .ok CAAs →
        CAAs ≠ [] →
        caaWalk env (p :: rest) = .ok (some (newCAASet CAAs))) ∧
    (∀ env p rest CAAs,
        String.intercalate "." (p :: rest) ∉ env.publicSuffixList →
        env.lookupCAA (String.intercalate "." (p :: rest)) false = .ok [] →
        env.lookupCAA (String.intercalate "." (p :: rest)) true = .ok CAAs →
        CAAs ≠ [] →
        caaWalk env (p :: rest) = .ok (some (newCAASet CAAs))) ∧
    (∀ env p rest,
        String.intercalate "." (p :: rest) ∉ env.publicSuffixList →
        env.lookupCAA (String.intercalate "." (p :: rest)) false = .ok [] →
        env.lookupCAA (String.intercalate "." (p :: rest)) true = .ok [] →
        caaWalk env (p :: rest) = caaWalk env rest) ∧
    (∀ va env idf, getCAASet env (goToLower idf.value) = .ok none →
        CheckCAARecords va env idf = .ok (false, true)) ∧
    CheckCAARecords vaProd s7Env s7Ident = .ok (true, true) := by
  refine ⟨?_, ?_, ?_, ?_, ?_, rfl⟩
  · intro env p rest hmem
    unfold caaWalk
    simp [hmem]
  · intro env p rest CAAs hmem hq hne
    unfold caaWalk
    simp [hmem, hq, List.length_pos.mpr hne]
  · intro env p rest CAAs hmem hq hcname hne
    unfold caaWalk
    simp [hmem, hq, hcname, List.length_pos.mpr hne]
  · intro env p rest hmem hq hcname
    conv_lhs => rw [caaWalk]
    simp [hmem, hq, hcname]
  · intro va env idf hnone
    unfold CheckCAARecords
    dsimp only
    rw [hnone]

/-- Witness for C7: a walk that finds no records anywhere yields
(present = false, valid = true). -/
def c7EmptyEnv : CAAEnv := { lookupCAA := fun _ _ => .ok [], publicSuffixList := [] }

theorem c7_caa_walk_inheritance_witness :
    CheckCAARecords vaProd c7EmptyEnv dnsIdent = .ok (false, true) :=
  c7_caa_walk_inheritance.2.2.2.2.1 vaProd c7EmptyEnv dnsIdent rfl

/- C8: validateDNS behavior. -/

/-- C8: for a DNS identifier, validateDNS consults the TXT records at
the name formed by prefixing the identifier value with _acme-challenge.;
a DNSSEC lookup failure yields invalid with error type dnssec, any other
lookup failure yields serverInternal, and on a successful lookup the
verdict is valid exactly when some TXT string equals the token, with
unauthorized otherwise. -/
theorem c8_validateDNS_behavior (va : VAConfig) (env : DNSEnv)
    (idf : AcmeIdentifier) (input : Challenge)
    (hdns : idf.type = IdentifierDNS) :
    (∀ m, env.lookupTXT ("_acme-challenge." ++ idf.value) = .dnssecFailure m →
        retStatus (validateDNS va env idf input) = some StatusInvalid ∧
        retErrorType (validateDNS va env idf input) = some DNSSECProblem) ∧
    (∀ m, env.lookupTXT ("_acme-challenge." ++ idf.value) = .failure m →
        retStatus (validateDNS va env idf input) = some StatusInvalid ∧
        retErrorType (validateDNS va env idf input) = some ServerInternalProblem) ∧
    (∀ txts, env.lookupTXT ("_acme-challenge." ++ idf.value) = .ok txts →
        (retStatus (validateDNS va env idf input) = some StatusValid ↔ input.token ∈ txts) ∧
        (input.token ∉ txts →
          retStatus (validateDNS va env idf input) = some StatusInvalid ∧
          retErrorType (validateDNS va env idf input) = some UnauthorizedProblem)) := by
  refine ⟨?_, ?_, ?_⟩
  · intro m hm
    simp [validateDNS, hdns, hm, retStatus, retErrorType, retChallenge]
  · intro m hm
    simp [validateDNS, hdns, hm, retStatus, retErrorType, retChallenge]
  · intro txts htxts
    by_cases hmem : input.token ∈ txts
    · simp [validateDNS, hdns, htxts, hmem, retStatus, retErrorType, retChallenge,
        StatusValid, StatusInvalid]
    · simp [validateDNS, hdns, htxts, hmem, retStatus, retErrorType, retChallenge,
        StatusValid, StatusInvalid]

def c8DnsEnv : DNSEnv :=
  { lookupTXT := fun q =>
      if q = "_acme-challenge.d.example" then .ok ["not-the-token", "expected-token"]
      else .failure "no such name" }

def c8Input : Challenge := { type := "dns", status := "pending", token := "expected-token" }

/-- Witness for C8: scenario S5, the expected token among the TXT strings
yields a valid verdict. -/
theorem c8_validateDNS_behavior_witness :
    retStatus (validateDNS vaProd c8DnsEnv dnsIdent c8Input) = some StatusValid :=
  ((c8_validateDNS_behavior vaProd c8DnsEnv dnsIdent c8Input rfl).2.2
      ["not-the-token", "expected-token"] rfl).1.mpr (by decide)

/- C9: the dispatcher on an unrecognized challenge type. -/

/-- C9: when the indexed challenge passes the sanity check but has a type
no switch case recognizes, the validation body leaves the authorization
(hence every challenge) unchanged and still produces exactly the audit
emit followed by the notice and the single RA callback. -/
theorem c9_unrecognized_type_noop (va : VAConfig) (env : ValidateEnv)
    (authz : Authorization) (i : Int) (key : JsonWebKey) (ch : Challenge)
    (hidx : goIndex authz.challenges i = some ch)
    (hsane : env.isSane ch = true)
    (h1 : ch.type ≠ ChallengeTypeSimpleHTTP)
    (h2 : ch.type ≠ ChallengeTypeDVSNI)
    (h3 : ch.type ≠ ChallengeTypeDNS) :
    validate va env authz i key =
      .ok (authz,
        [.auditObject "Validation result"
            { id := authz.id, requester := authz.registrationID,
              challenge := some ch, error := "" },
         .noticeValidations authz,
         .raOnValidationUpdate authz]) := by
  unfold validate
  rw [hidx]
  simp [hsane, h1, h2, h3, hidx]

def c9Ch : Challenge := { type := "bogus", status := "pending", token := "t" }

def c9Authz : Authorization :=
  { id := "authz1", registrationID := 42,
    identifier := { type := "dns", value := "d.example" },
    challenges := [c9Ch] }

/-- Witness for C9 at a concrete authorization holding one challenge of an
unrecognized type. -/
theorem c9_unrecognized_type_noop_witness :
    validate vaProd trivialValidateEnv c9Authz 0 acctKey =
      .ok (c9Authz,
        [.auditObject "Validation result"
            { id := c9Authz.id, requester := c9Authz.registrationID,
              challenge := some c9Ch, error := "" },
         .noticeValidations c9Authz,
         .raOnValidationUpdate c9Authz]) :=
  c9_unrecognized_type_noop vaProd trivialValidateEnv c9Authz 0 acctKey c9Ch
    rfl rfl (by decide) (by decide) (by decide)

/- C10: the missing bounds check on challengeIndex. -/

/-- C10: the validation body indexes the challenge list without a bounds
check: for every challengeIndex outside 0 ≤ i < length the access is a
runtime error, not a reported invalid verdict. -/
theorem c10_out_of_range_panics (va : VAConfig) (env : ValidateEnv)
    (authz : Authorization) (i : Int) (key : JsonWebKey)
    (h : ¬(0 ≤ i ∧ i < (authz.challenges.length : Int))) :
    validate va env authz i key = .crash "runtime error: index out of range" := by
  have hnone : goIndex authz.challenges i = none := by
    unfold goIndex
    split
    · refine List.get?_eq_none.mpr ?_
      omega
    · rfl
  unfold validate
  rw [hnone]

def c10Authz : Authorization :=
  { id := "authz2", registrationID := 7,
    identifier := { type := "dns", value := "d.example" },
    challenges := [] }

/-- Witness for C10: indexing an empty challenge list panics. -/
theorem c10_out_of_range_panics_witness :
    validate vaProd trivialValidateEnv c10Authz 0 acctKey =
      .crash "runtime error: index out of range" :=
  c10_out_of_range_panics vaProd trivialValidateEnv c10Authz 0 acctKey (by decide)

end BoulderVA
